import Mathlib

/-!
Verification of the voice-activity-detection (VAD) recording controller
implemented in `src/hooks/use-microphone.ts`.

The embedding models the controller at two levels.

Session level: the VAD decision logic that runs once a session is live.
`monitorTick` is the body of the `setInterval` callback installed by
`startRecording` (it reads one RMS `level` at wall-clock time `now` and
either keeps recording, records speech detection, or stops the recorder);
`onDataAvailable` is the `recorder.ondataavailable` handler; `finalize`
is the blob computation performed by `recorder.onstop`.  A session run is
a list of `CaptureEvent`s (monitor ticks, data-available events, caller
stop requests) folded over `stepEvent` from `initialState`.

Hook level: the resource lifecycle of the React hook.  `HookRefs` models
the mutable refs (`mediaStreamRef`, `recorderRef`, `analyserRef`,
`audioContextRef`, `monitorTimerRef`, `chunksRef`, the timestamps and the
`isRecording` state); `startRecording` and `stopRecording` model the two
public operations, with the fallible browser constructions
(`getUserMedia`, `new AudioContext`, analyser setup, `new MediaRecorder`)
represented by an explicit `Option StartFailure` environment.

Timestamps (`performance.now()` values, milliseconds) are modelled as
integers; the source only ever subtracts and compares them.  RMS energy
values and the energy threshold are rationals; the source only ever
compares them.  Audio chunk payloads are byte lists; a `Blob`
concatenation is `List.flatten`.
-/

/-- The `MediaRecorder.state` values the source distinguishes
(`"recording"` versus anything else). -/
inductive RecorderState
  | recording
  | inactive
  deriving DecidableEq

/-- The clamped configuration computed at the top of `startRecording`
(lines 142-147 of `use-microphone.ts`).  Duration and interval fields are
integers because the source passes them through `Math.round`; the energy
threshold is not rounded. -/
structure CaptureConfig where
  maxDurationMs : ℤ
  minDurationMs : ℤ
  endSilenceMs : ℤ
  energyThreshold : ℚ
  sampleIntervalMs : ℤ
  timesliceMs : ℤ
  deriving DecidableEq

/-- The session-scoped mutable state read and written by the monitor
interval callback and the recorder event handlers: the recorder's state,
`speechDetectedRef`, `speechStartedAtRef`, `recordingStartedAtRef`,
`lastVoiceAtRef` and `chunksRef`. -/
structure SessionState where
  recorderState : RecorderState
  speechDetected : Bool
  speechStartedAt : ℤ
  recordingStartedAt : ℤ
  lastVoiceAt : ℤ
  chunks : List (List ℕ)
  deriving DecidableEq

/-- Which branch of the monitor interval callback a tick took. -/
inductive TickOutcome
  | skipped
  | keep
  | stopMaxDuration
  | stopSpeechMaxDuration
  | stopSilence
  deriving DecidableEq

/-- The monitor interval callback (lines 209-251 of `use-microphone.ts`),
executed with the RMS `level` sampled at time `now`.  Returns the updated
session state together with the branch taken. -/
def monitorTick (cfg : CaptureConfig) (s : SessionState) (now : ℤ) (level : ℚ) :
    SessionState × TickOutcome :=
  if s.recorderState = RecorderState.recording then
    if now - s.recordingStartedAt ≥ cfg.maxDurationMs then
      ({ s with recorderState := RecorderState.inactive }, TickOutcome.stopMaxDuration)
    else if s.speechDetected = false then
      if level ≥ cfg.energyThreshold then
        ({ s with speechDetected := true, speechStartedAt := now, lastVoiceAt := now },
          TickOutcome.keep)
      else
        (s, TickOutcome.keep)
    else
      let lastVoice := if level ≥ cfg.energyThreshold then now else s.lastVoiceAt
      if now - s.speechStartedAt ≥ cfg.maxDurationMs then
        ({ s with lastVoiceAt := lastVoice, recorderState := RecorderState.inactive },
          TickOutcome.stopSpeechMaxDuration)
      else if now - s.speechStartedAt ≥ cfg.minDurationMs ∧
          now - lastVoice ≥ cfg.endSilenceMs then
        ({ s with lastVoiceAt := lastVoice, recorderState := RecorderState.inactive },
          TickOutcome.stopSilence)
      else
        ({ s with lastVoiceAt := lastVoice }, TickOutcome.keep)
  else
    (s, TickOutcome.skipped)

/-- The `recorder.ondataavailable` handler (lines 173-184): a chunk with
positive size is appended to `chunksRef`, and if speech has been detected
a snapshot Blob concatenating every chunk so far is handed to
`onRecordingChunk`.  Returns the updated state and the emitted snapshot,
if any. -/
def onDataAvailable (s : SessionState) (bytes : List ℕ) :
    SessionState × Option (List ℕ) :=
  if bytes.length > 0 then
    let s1 := { s with chunks := s.chunks ++ [bytes] }
    if s1.speechDetected = true then
      (s1, some s1.chunks.flatten)
    else
      (s1, none)
  else
    (s, none)

/-- The blob computation of `recorder.onstop` (lines 194-198): the final
audio blob is the concatenation of all chunks when speech was detected
and at least one chunk was collected, and `null` otherwise. -/
def finalize (s : SessionState) : Option (List ℕ) :=
  if s.speechDetected = true ∧ s.chunks.length > 0 then
    some s.chunks.flatten
  else
    none

/-- A caller-initiated `recorder.stop()` (the active branch of
`stopRecording`, line 275): the recorder leaves the `recording` state;
the session refs are untouched until `onstop` runs. -/
def stopRequestStep (s : SessionState) : SessionState :=
  if s.recorderState = RecorderState.recording then
    { s with recorderState := RecorderState.inactive }
  else
    s

/-- One observable event during a live session: a monitor tick carrying a
sampled RMS level, a `dataavailable` event carrying encoded bytes, or a
caller stop request. -/
inductive CaptureEvent
  | sample (now : ℤ) (level : ℚ)
  | dataChunk (bytes : List ℕ)
  | stopRequest
  deriving DecidableEq

/-- Result of processing a single event: the successor state, the chunk
snapshot delivered to `onRecordingChunk` (if any), and the tick branch
taken (for tick events). -/
structure StepOut where
  state : SessionState
  snapshot : Option (List ℕ)
  outcome : Option TickOutcome
  deriving DecidableEq

/-- Dispatch one event to the corresponding source handler. -/
def stepEvent (cfg : CaptureConfig) (s : SessionState) : CaptureEvent → StepOut
  | CaptureEvent.sample now level =>
      { state := (monitorTick cfg s now level).1, snapshot := none,
        outcome := some (monitorTick cfg s now level).2 }
  | CaptureEvent.dataChunk bytes =>
      { state := (onDataAvailable s bytes).1, snapshot := (onDataAvailable s bytes).2,
        outcome := none }
  | CaptureEvent.stopRequest =>
      { state := stopRequestStep s, snapshot := none, outcome := none }

/-- The state transformer of one event. -/
def stepState (cfg : CaptureConfig) (s : SessionState) (e : CaptureEvent) : SessionState :=
  (stepEvent cfg s e).state

/-- Session state immediately after `recorder.start(timesliceMs)` at time
`t0` (lines 163-171 and 206): recording, no speech detected, all
timestamps but `recordingStartedAt` zeroed, no chunks. -/
def initialState (t0 : ℤ) : SessionState :=
  { recorderState := RecorderState.recording, speechDetected := false,
    speechStartedAt := 0, recordingStartedAt := t0, lastVoiceAt := 0, chunks := [] }

/-- Fold a whole event list through the handlers. -/
def finalState (cfg : CaptureConfig) (s : SessionState) (es : List CaptureEvent) :
    SessionState :=
  es.foldl (stepState cfg) s

/-- State reached after the first `n` events. -/
def stateAt (cfg : CaptureConfig) (s : SessionState) (es : List CaptureEvent) (n : ℕ) :
    SessionState :=
  finalState cfg s (es.take n)

/-- Snapshot emitted while processing event `n`, if any. -/
def snapshotAt (cfg : CaptureConfig) (s : SessionState) (es : List CaptureEvent) (n : ℕ) :
    Option (List ℕ) :=
  if h : n < es.length then
    (stepEvent cfg (stateAt cfg s es n) (es.get ⟨n, h⟩)).snapshot
  else
    none

/-- The nonempty chunk payloads carried by an event list, in order: these
are exactly the chunks `ondataavailable` appends to `chunksRef`. -/
def collectedChunks (es : List CaptureEvent) : List (List ℕ) :=
  es.filterMap (fun e =>
    match e with
    | CaptureEvent.dataChunk b => if b.length > 0 then some b else none
    | _ => none)

/-- The full observable trace of a run: the per-event `StepOut`s in
order. -/
def runTrace (cfg : CaptureConfig) (s : SessionState) : List CaptureEvent → List StepOut
  | [] => []
  | e :: es => stepEvent cfg s e :: runTrace cfg (stepState cfg s e) es

/-- The raw `StartRecordingOptions` accepted by `startRecording` (lines
11-18): every field optional, values arbitrary JS numbers (modelled as
rationals). -/
structure StartRecordingOptions where
  maxDurationMs : Option ℚ
  minDurationMs : Option ℚ
  endSilenceMs : Option ℚ
  energyThreshold : Option ℚ
  sampleIntervalMs : Option ℚ
  timesliceMs : Option ℚ
  deriving DecidableEq

/-- JS `Math.round`: nearest integer, halves rounded toward positive
infinity. -/
def jsRound (x : ℚ) : ℤ := ⌊x + 1 / 2⌋

/-- Option resolution of `startRecording` (lines 142-147): each duration
or interval is defaulted, rounded with `Math.round`, then clamped from
below with `Math.max`; the energy threshold is defaulted and clamped but
not rounded. -/
def resolveConfig (o : StartRecordingOptions) : CaptureConfig :=
  { maxDurationMs := max 1000 (jsRound (o.maxDurationMs.getD 12000))
  , minDurationMs := max 0 (jsRound (o.minDurationMs.getD 500))
  , endSilenceMs := max 100 (jsRound (o.endSilenceMs.getD 600))
  , energyThreshold := max (1 / 10000) (o.energyThreshold.getD (15 / 1000))
  , sampleIntervalMs := max 30 (jsRound (o.sampleIntervalMs.getD 100))
  , timesliceMs := max 120 (jsRound (o.timesliceMs.getD 250)) }

/-- A rational-valued view of a configuration, for comparison with the
spec's unrounded description. -/
structure RatConfig where
  maxDurationMs : ℚ
  minDurationMs : ℚ
  endSilenceMs : ℚ
  energyThreshold : ℚ
  sampleIntervalMs : ℚ
  timesliceMs : ℚ
  deriving DecidableEq

/-- Cast a resolved configuration to rationals. -/
def ratView (c : CaptureConfig) : RatConfig :=
  { maxDurationMs := (c.maxDurationMs : ℚ)
  , minDurationMs := (c.minDurationMs : ℚ)
  , endSilenceMs := (c.endSilenceMs : ℚ)
  , energyThreshold := c.energyThreshold
  , sampleIntervalMs := (c.sampleIntervalMs : ℚ)
  , timesliceMs := (c.timesliceMs : ℚ) }

/-- The configuration exactly as claim C7 words it: the given value (or
the stated default when absent) clamped to the stated floor, with no
mention of rounding. -/
def claimedConfig (o : StartRecordingOptions) : RatConfig :=
  { maxDurationMs := max 1000 (o.maxDurationMs.getD 12000)
  , minDurationMs := max 0 (o.minDurationMs.getD 500)
  , endSilenceMs := max 100 (o.endSilenceMs.getD 600)
  , energyThreshold := max (1 / 10000) (o.energyThreshold.getD (15 / 1000))
  , sampleIntervalMs := max 30 (o.sampleIntervalMs.getD 100)
  , timesliceMs := max 120 (o.timesliceMs.getD 250) }

/-- The configuration as the amended claim words it: the given value (or
the stated default when absent) rounded half-up to the nearest integer —
except the energy threshold, which is never rounded — and then clamped to
the stated floor. -/
def claimedConfigRounded (o : StartRecordingOptions) : CaptureConfig :=
  { maxDurationMs := max 1000 (jsRound (o.maxDurationMs.getD 12000))
  , minDurationMs := max 0 (jsRound (o.minDurationMs.getD 500))
  , endSilenceMs := max 100 (jsRound (o.endSilenceMs.getD 600))
  , energyThreshold := max (1 / 10000) (o.energyThreshold.getD (15 / 1000))
  , sampleIntervalMs := max 30 (jsRound (o.sampleIntervalMs.getD 100))
  , timesliceMs := max 120 (jsRound (o.timesliceMs.getD 250)) }

/-- An options record with every field absent. -/
def emptyOptions : StartRecordingOptions :=
  { maxDurationMs := none, minDurationMs := none, endSilenceMs := none,
    energyThreshold := none, sampleIntervalMs := none, timesliceMs := none }

/-- The mutable refs of the hook, plus the `isRecording` React state and
whether a stop resolver is parked in `resolveStopRef`.  Boolean fields
record whether the corresponding handle currently holds a resource. -/
structure HookRefs where
  mediaStream : Bool
  recorder : Option RecorderState
  analyser : Bool
  audioContext : Bool
  monitorTimer : Bool
  chunks : List (List ℕ)
  speechDetected : Bool
  speechStartedAt : ℤ
  recordingStartedAt : ℤ
  lastVoiceAt : ℤ
  isRecording : Bool
  resolveStopPending : Bool
  deriving DecidableEq

/-- The `cleanup` callback (lines 86-111): clears the timer, stops and
drops the stream, drops the recorder and analyser handles, empties the
chunk buffer, zeroes the VAD refs and closes the audio context.  It does
not touch `isRecording` or the parked stop resolver. -/
def cleanupRefs (r : HookRefs) : HookRefs :=
  { r with
    mediaStream := false
    recorder := none
    analyser := false
    audioContext := false
    monitorTimer := false
    chunks := []
    speechDetected := false
    speechStartedAt := 0
    recordingStartedAt := 0
    lastVoiceAt := 0 }

/-- The idle refs: nothing allocated, nothing recorded. -/
def idleRefs : HookRefs :=
  { mediaStream := false, recorder := none, analyser := false,
    audioContext := false, monitorTimer := false, chunks := [],
    speechDetected := false, speechStartedAt := 0, recordingStartedAt := 0,
    lastVoiceAt := 0, isRecording := false, resolveStopPending := false }

/-- A JS exception as `getErrorMessage` (lines 20-28) inspects it:
whether it is a `DOMException`/`Error`, and its message string. -/
structure JsError where
  isException : Bool
  message : String
  deriving DecidableEq

/-- `getErrorMessage`: the exception's message when it is an exception
with a non-empty message, otherwise the generic fallback text. -/
def getErrorMessage (e : JsError) : String :=
  if e.isException = true ∧ e.message ≠ "" then e.message
  else "Unable to access your microphone."

/-- Which fallible construction inside the `try` block of
`startRecording` throws: device acquisition (line 150), the
`AudioContext` constructor (line 154), the analyser wiring (lines
155-159) or the `MediaRecorder` constructor (line 161). -/
inductive StartFailure
  | getUserMedia (e : JsError)
  | audioContextCtor (e : JsError)
  | analyserSetup (e : JsError)
  | mediaRecorderCtor (e : JsError)
  deriving DecidableEq

/-- Everything observable about one `startRecording` call: the refs it
leaves behind, its returned boolean, the `onError` messages it fired, and
the fate of the externally acquired resources.  `acquiredStream` records
whether `getUserMedia` was invoked and succeeded; `streamLeaked` (resp.
`audioContextLeaked`) records that a live stream (resp. an open audio
context) was acquired during the call but neither stored in the refs nor
released by the time the call returned. -/
structure StartOutcome where
  refs : HookRefs
  returned : Bool
  errors : List String
  acquiredStream : Bool
  streamLeaked : Bool
  audioContextLeaked : Bool
  deriving DecidableEq

/-- The `startRecording` operation (lines 130-262) over the hook refs.
`supported` is the `supportsRecording` capability probe; `failure` says
which fallible construction, if any, throws.  The source stores the
stream, context, analyser and recorder into the refs only after all four
constructions succeed (lines 163-166), so when a later construction
throws, the `catch` block's `cleanup()` cannot reach the resources
acquired earlier in the same call: they are leaked. -/
def startRecording (supported : Bool) (r : HookRefs) (_o : StartRecordingOptions)
    (failure : Option StartFailure) (startTime : ℤ) : StartOutcome :=
  if supported = false then
    { refs := r, returned := false,
      errors := ["Your browser does not support microphone recording."],
      acquiredStream := false, streamLeaked := false, audioContextLeaked := false }
  else if r.recorder = some RecorderState.recording then
    { refs := r, returned := true, errors := [],
      acquiredStream := false, streamLeaked := false, audioContextLeaked := false }
  else
    match failure with
    | some (StartFailure.getUserMedia e) =>
        { refs := { cleanupRefs r with isRecording := false }, returned := false,
          errors := [getErrorMessage e], acquiredStream := false,
          streamLeaked := false, audioContextLeaked := false }
    | some (StartFailure.audioContextCtor e) =>
        { refs := { cleanupRefs r with isRecording := false }, returned := false,
          errors := [getErrorMessage e], acquiredStream := true,
          streamLeaked := true, audioContextLeaked := false }
    | some (StartFailure.analyserSetup e) =>
        { refs := { cleanupRefs r with isRecording := false }, returned := false,
          errors := [getErrorMessage e], acquiredStream := true,
          streamLeaked := true, audioContextLeaked := true }
    | some (StartFailure.mediaRecorderCtor e) =>
        { refs := { cleanupRefs r with isRecording := false }, returned := false,
          errors := [getErrorMessage e], acquiredStream := true,
          streamLeaked := true, audioContextLeaked := true }
    | none =>
        { refs :=
            { mediaStream := true, recorder := some RecorderState.recording,
              analyser := true, audioContext := true, monitorTimer := true,
              chunks := [], speechDetected := false, speechStartedAt := 0,
              recordingStartedAt := startTime, lastVoiceAt := 0,
              isRecording := true, resolveStopPending := r.resolveStopPending },
          returned := true, errors := [], acquiredStream := true,
          streamLeaked := false, audioContextLeaked := false }

/-- The `stopRecording` operation (lines 264-277).  Second component:
`some none` means the returned promise resolved immediately with `null`;
`none` means resolution was deferred to the recorder's `onstop`
handler. -/
def stopRecording (r : HookRefs) : HookRefs × Option (Option (List ℕ)) :=
  if r.recorder = some RecorderState.recording then
    ({ r with recorder := some RecorderState.inactive, resolveStopPending := true },
      none)
  else
    ({ cleanupRefs r with isRecording := false }, some none)

/-! Helper lemmas about single steps and runs. -/

/-- No handler ever writes `recordingStartedAt` during a session. -/
theorem stepState_recordingStartedAt (cfg : CaptureConfig) (s : SessionState)
    (e : CaptureEvent) : (stepState cfg s e).recordingStartedAt = s.recordingStartedAt := by
  cases e <;>
    simp only [stepState, stepEvent, monitorTick, onDataAvailable, stopRequestStep] <;>
    split_ifs <;> rfl

/-- No handler ever resets `speechDetected` during a session. -/
theorem stepState_speechDetected_mono (cfg : CaptureConfig) (s : SessionState)
    (e : CaptureEvent) (h : s.speechDetected = true) :
    (stepState cfg s e).speechDetected = true := by
  cases e <;>
    simp only [stepState, stepEvent, monitorTick, onDataAvailable, stopRequestStep] <;>
    split_ifs <;> simp_all

/-- Once the recorder has left the `recording` state, no session event
brings it back. -/
theorem stepState_inactive (cfg : CaptureConfig) (s : SessionState)
    (e : CaptureEvent) (h : s.recorderState = RecorderState.inactive) :
    (stepState cfg s e).recorderState = RecorderState.inactive := by
  cases e <;>
    simp only [stepState, stepEvent, monitorTick, onDataAvailable, stopRequestStep] <;>
    split_ifs <;> simp_all

/-- Each step only ever appends to the chunk buffer. -/
theorem stepState_chunks_append (cfg : CaptureConfig) (s : SessionState)
    (e : CaptureEvent) : ∃ t, (stepState cfg s e).chunks = s.chunks ++ t := by
  cases e with
  | sample now level =>
      refine ⟨[], ?_⟩
      simp only [stepState, stepEvent, monitorTick]
      split_ifs <;> simp
  | dataChunk b =>
      simp only [stepState, stepEvent, onDataAvailable]
      split_ifs with h1 h2
      · exact ⟨[b], rfl⟩
      · exact ⟨[b], rfl⟩
      · exact ⟨[], by simp⟩
  | stopRequest =>
      refine ⟨[], ?_⟩
      simp only [stepState, stepEvent, stopRequestStep]
      split_ifs <;> simp

/-- Folding over a concatenation of event lists. -/
theorem finalState_append (cfg : CaptureConfig) (s : SessionState)
    (es es' : List CaptureEvent) :
    finalState cfg s (es ++ es') = finalState cfg (finalState cfg s es) es' := by
  simp [finalState, List.foldl_append]

/-- Unrolling one step of `stateAt`. -/
theorem stateAt_succ (cfg : CaptureConfig) (s : SessionState) (es : List CaptureEvent)
    (n : ℕ) (h : n < es.length) :
    stateAt cfg s es (n + 1) = stepState cfg (stateAt cfg s es n) (es.get ⟨n, h⟩) := by
  simp only [stateAt, finalState]
  rw [← List.take_concat_get _ _ h, List.concat_eq_append, List.foldl_append]
  simp

/-- `stateAt` at the full length is the final state. -/
theorem stateAt_length (cfg : CaptureConfig) (s : SessionState) (es : List CaptureEvent) :
    stateAt cfg s es es.length = finalState cfg s es := by
  simp [stateAt, List.take_length]

/-- A later `stateAt` is a continuation of an earlier one. -/
theorem stateAt_decompose (cfg : CaptureConfig) (s : SessionState)
    (es : List CaptureEvent) (m n : ℕ) (h : m ≤ n) :
    stateAt cfg s es n = finalState cfg (stateAt cfg s es m) ((es.take n).drop m) := by
  have h1 : es.take m = (es.take n).take m := by
    rw [List.take_take, Nat.min_eq_left h]
  rw [stateAt, stateAt, h1, ← finalState_append]
  rw [List.take_append_drop]

/-- Run version: `recordingStartedAt` is constant over a session. -/
theorem finalState_recordingStartedAt (cfg : CaptureConfig) (s : SessionState)
    (es : List CaptureEvent) :
    (finalState cfg s es).recordingStartedAt = s.recordingStartedAt := by
  induction es generalizing s with
  | nil => rfl
  | cons e es ih =>
      rw [show finalState cfg s (e :: es) = finalState cfg (stepState cfg s e) es from rfl,
        ih, stepState_recordingStartedAt]

/-- Run version: once detected, speech stays detected. -/
theorem finalState_speechDetected_mono (cfg : CaptureConfig) (s : SessionState)
    (es : List CaptureEvent) (h : s.speechDetected = true) :
    (finalState cfg s es).speechDetected = true := by
  induction es generalizing s with
  | nil => exact h
  | cons e es ih =>
      exact ih _ (stepState_speechDetected_mono cfg s e h)

/-- Run version: an inactive recorder stays inactive. -/
theorem finalState_inactive (cfg : CaptureConfig) (s : SessionState)
    (es : List CaptureEvent) (h : s.recorderState = RecorderState.inactive) :
    (finalState cfg s es).recorderState = RecorderState.inactive := by
  induction es generalizing s with
  | nil => exact h
  | cons e es ih =>
      exact ih _ (stepState_inactive cfg s e h)

/-- Run version: the chunk buffer only grows. -/
theorem finalState_chunks_append (cfg : CaptureConfig) (s : SessionState)
    (es : List CaptureEvent) : ∃ t, (finalState cfg s es).chunks = s.chunks ++ t := by
  induction es generalizing s with
  | nil => exact ⟨[], by simp [finalState]⟩
  | cons e es ih =>
      obtain ⟨t1, h1⟩ := stepState_chunks_append cfg s e
      obtain ⟨t2, h2⟩ := ih (stepState cfg s e)
      exact ⟨t1 ++ t2, by
        rw [show finalState cfg s (e :: es) = finalState cfg (stepState cfg s e) es from rfl,
          h2, h1, List.append_assoc]⟩

/-- The chunk buffer after a run is the starting buffer followed by
exactly the nonempty data payloads of the run, in order. -/
theorem finalState_chunks (cfg : CaptureConfig) (s : SessionState)
    (es : List CaptureEvent) :
    (finalState cfg s es).chunks = s.chunks ++ collectedChunks es := by
  induction es generalizing s with
  | nil => simp [finalState, collectedChunks]
  | cons e es ih =>
      rw [show finalState cfg s (e :: es) = finalState cfg (stepState cfg s e) es from rfl, ih]
      cases e with
      | sample now level =>
          have hc : (stepState cfg s (CaptureEvent.sample now level)).chunks = s.chunks := by
            simp only [stepState, stepEvent, monitorTick]
            split_ifs <;> rfl
          rw [hc]
          simp [collectedChunks]
      | dataChunk b =>
          by_cases hb : b.length > 0
          · have hc : (stepState cfg s (CaptureEvent.dataChunk b)).chunks =
                s.chunks ++ [b] := by
              simp only [stepState, stepEvent, onDataAvailable]
              split_ifs <;> simp_all
            rw [hc]
            simp [collectedChunks, hb, List.filterMap_cons, List.append_assoc]
          · have hc : (stepState cfg s (CaptureEvent.dataChunk b)).chunks = s.chunks := by
              simp only [stepState, stepEvent, onDataAvailable]
              split_ifs <;> simp_all
            rw [hc]
            simp [collectedChunks, hb, List.filterMap_cons]
      | stopRequest =>
          have hc : (stepState cfg s CaptureEvent.stopRequest).chunks = s.chunks := by
            simp only [stepState, stepEvent, stopRequestStep]
            split_ifs <;> rfl
          rw [hc]
          simp [collectedChunks]

/-! Claim theorems. -/

/-- C4: the VAD decision procedure is deterministic.  For a fixed
configuration and session start time, two runs over identical ordered
event sequences produce identical traces — per-event successor states
(speech-detected flag, speech-start and last-voice timestamps), emitted
snapshots and stop decisions — and identical final blobs. -/
theorem c4_determinism (cfg : CaptureConfig) (t0 : ℤ) (es1 es2 : List CaptureEvent)
    (h : es1 = es2) :
    runTrace cfg (initialState t0) es1 = runTrace cfg (initialState t0) es2 ∧
    finalize (finalState cfg (initialState t0) es1) =
      finalize (finalState cfg (initialState t0) es2) := by
  subst h
  exact ⟨rfl, rfl⟩

/-- Witness for C4 at a concrete configuration and sample sequence. -/
theorem c4_witness :
    runTrace ⟨12000, 500, 600, 1, 100, 250⟩ (initialState 0)
        [CaptureEvent.sample 100 1, CaptureEvent.dataChunk [7],
          CaptureEvent.sample 700 0] =
      runTrace ⟨12000, 500, 600, 1, 100, 250⟩ (initialState 0)
        [CaptureEvent.sample 100 1, CaptureEvent.dataChunk [7],
          CaptureEvent.sample 700 0] ∧
    finalize (finalState ⟨12000, 500, 600, 1, 100, 250⟩ (initialState 0)
        [CaptureEvent.sample 100 1, CaptureEvent.dataChunk [7],
          CaptureEvent.sample 700 0]) =
      finalize (finalState ⟨12000, 500, 600, 1, 100, 250⟩ (initialState 0)
        [CaptureEvent.sample 100 1, CaptureEvent.dataChunk [7],
          CaptureEvent.sample 700 0]) :=
  c4_determinism ⟨12000, 500, 600, 1, 100, 250⟩ 0 _ _ rfl

/-- C6: calling `startRecording` while a recorder exists and is in the
`recording` state (on a platform that supports recording, the only way a
recorder can exist) returns `true` and performs no side effects: the refs
are unchanged, no error fires, no device is acquired and nothing is
constructed or leaked. -/
theorem c6_idempotent_start (r : HookRefs) (o : StartRecordingOptions)
    (failure : Option StartFailure) (t : ℤ)
    (h : r.recorder = some RecorderState.recording) :
    startRecording true r o failure t =
      { refs := r, returned := true, errors := [], acquiredStream := false,
        streamLeaked := false, audioContextLeaked := false } := by
  simp [startRecording, h]

/-- Witness for C6: a live recording session, a pending failure
environment that is never consulted. -/
theorem c6_witness :
    startRecording true
        { mediaStream := true, recorder := some RecorderState.recording,
          analyser := true, audioContext := true, monitorTimer := true,
          chunks := [[1]], speechDetected := true, speechStartedAt := 100,
          recordingStartedAt := 0, lastVoiceAt := 100, isRecording := true,
          resolveStopPending := false }
        emptyOptions
        (some (StartFailure.getUserMedia { isException := true, message := "denied" })) 7 =
      { refs :=
          { mediaStream := true, recorder := some RecorderState.recording,
            analyser := true, audioContext := true, monitorTimer := true,
            chunks := [[1]], speechDetected := true, speechStartedAt := 100,
            recordingStartedAt := 0, lastVoiceAt := 100, isRecording := true,
            resolveStopPending := false },
        returned := true, errors := [], acquiredStream := false,
        streamLeaked := false, audioContextLeaked := false } :=
  c6_idempotent_start _ _ _ _ rfl

/-- C9: calling `stopRecording` with no active session (no recorder, or a
recorder that is not in the `recording` state) resolves immediately with
`null` and still performs the full teardown: every ref is cleared no
matter what was partially allocated, and no resource is acquired
(`stopRecording` consults no environment at all). -/
theorem c9_idle_stop (r : HookRefs) (h : r.recorder ≠ some RecorderState.recording) :
    stopRecording r =
      ({ mediaStream := false, recorder := none, analyser := false,
         audioContext := false, monitorTimer := false, chunks := [],
         speechDetected := false, speechStartedAt := 0, recordingStartedAt := 0,
         lastVoiceAt := 0, isRecording := false,
         resolveStopPending := r.resolveStopPending }, some none) := by
  simp [stopRecording, h, cleanupRefs]

/-- Witness for C9: stopping with a partially allocated state (an
analyser and a timer but no recorder) tears everything down and resolves
with `null`. -/
theorem c9_witness :
    stopRecording
        { mediaStream := true, recorder := none, analyser := true,
          audioContext := true, monitorTimer := true, chunks := [[3]],
          speechDetected := false, speechStartedAt := 0, recordingStartedAt := 2,
          lastVoiceAt := 0, isRecording := true, resolveStopPending := false } =
      ({ mediaStream := false, recorder := none, analyser := false,
         audioContext := false, monitorTimer := false, chunks := [],
         speechDetected := false, speechStartedAt := 0, recordingStartedAt := 0,
         lastVoiceAt := 0, isRecording := false, resolveStopPending := false },
        some none) :=
  c9_idle_stop _ (by decide)

/-- C7 counterexample: the claim omits the source's `Math.round`.  With
`maxDurationMs = 12000.5` the source resolves the ceiling to `12001`,
while the claim's description (default-or-given value clamped to the
floor) yields `12000.5`. -/
theorem c7_counterexample :
    ratView (resolveConfig
      { maxDurationMs := some (24001 / 2), minDurationMs := none,
        endSilenceMs := none, energyThreshold := none, sampleIntervalMs := none,
        timesliceMs := none }) ≠
    claimedConfig
      { maxDurationMs := some (24001 / 2), minDurationMs := none,
        endSilenceMs := none, energyThreshold := none, sampleIntervalMs := none,
        timesliceMs := none } := by
  intro h
  have h1 := congrArg RatConfig.maxDurationMs h
  simp only [ratView, resolveConfig, claimedConfig, jsRound, Option.getD] at h1
  norm_num at h1

/-- C7 (amended): the effective configuration equals the stated defaults
or given values rounded half-up to the nearest integer — except
`energy_threshold`, which is not rounded — and then clamped to the stated
floors; absent fields resolve to exactly the stated defaults, and every
resolved field respects its floor. -/
theorem c7_config_clamping :
    (∀ o : StartRecordingOptions, resolveConfig o = claimedConfigRounded o) ∧
    resolveConfig emptyOptions =
      { maxDurationMs := 12000, minDurationMs := 500, endSilenceMs := 600,
        energyThreshold := 15 / 1000, sampleIntervalMs := 100, timesliceMs := 250 } ∧
    (∀ o : StartRecordingOptions,
      1000 ≤ (resolveConfig o).maxDurationMs ∧
      0 ≤ (resolveConfig o).minDurationMs ∧
      100 ≤ (resolveConfig o).endSilenceMs ∧
      1 / 10000 ≤ (resolveConfig o).energyThreshold ∧
      30 ≤ (resolveConfig o).sampleIntervalMs ∧
      120 ≤ (resolveConfig o).timesliceMs) := by
  refine ⟨fun o => rfl, ?_, fun o =>
    ⟨le_max_left _ _, le_max_left _ _, le_max_left _ _, le_max_left _ _,
      le_max_left _ _, le_max_left _ _⟩⟩
  simp only [resolveConfig, emptyOptions, Option.getD, jsRound, CaptureConfig.mk.injEq]
  norm_num

/-- Generic run invariant: a property preserved by every step along an
event list holds of the final state. -/
theorem finalState_inv (cfg : CaptureConfig) (P : SessionState → Prop)
    (s : SessionState) (es : List CaptureEvent) (h0 : P s)
    (hstep : ∀ s' e, e ∈ es → P s' → P (stepState cfg s' e)) :
    P (finalState cfg s es) := by
  induction es generalizing s with
  | nil => exact h0
  | cons e es ih =>
      exact ih (stepState cfg s e)
        (hstep s e (List.mem_cons_self e es) h0)
        (fun s' e' he' => hstep s' e' (List.mem_cons_of_mem e he'))

/-- On an all-quiet event list (every sampled level strictly below the
threshold) no step ever sets `speechDetected`. -/
theorem quiet_keeps_silent (cfg : CaptureConfig) (s : SessionState) (e : CaptureEvent)
    (hq : ∀ now level, e = CaptureEvent.sample now level → level < cfg.energyThreshold)
    (h : s.speechDetected = false) : (stepState cfg s e).speechDetected = false := by
  cases e with
  | sample now level =>
      have hl : ¬ (level ≥ cfg.energyThreshold) := not_le.mpr (hq now level rfl)
      simp only [stepState, stepEvent, monitorTick]
      split_ifs <;> simp_all
  | dataChunk b =>
      simp only [stepState, stepEvent, onDataAvailable]
      split_ifs <;> simp_all
  | stopRequest =>
      simp only [stepState, stepEvent, stopRequestStep]
      split_ifs <;> simp_all

/-- C3: when every sample's energy is strictly below the threshold and
the caller never requests a stop, speech is never detected, the final
blob is `None`, a tick makes the recorder inactive exactly when a
previous event already had (impossible before the ceiling) or the tick's
elapsed time since session start reached `max_duration`, data arrivals
never change the recorder state, and while every past tick happened
strictly before the ceiling the recorder is still recording — so the
session stops autonomously precisely at the first tick with elapsed ≥
`max_duration`, with blob `None`. -/
theorem c3_no_speech_ceiling (cfg : CaptureConfig) (t0 : ℤ) (es : List CaptureEvent)
    (hq : ∀ now level, CaptureEvent.sample now level ∈ es → level < cfg.energyThreshold)
    (hs : CaptureEvent.stopRequest ∉ es) :
    (∀ n : ℕ, (stateAt cfg (initialState t0) es n).speechDetected = false) ∧
    finalize (finalState cfg (initialState t0) es) = none ∧
    (∀ (n : ℕ) (h : n < es.length) (now : ℤ) (level : ℚ),
      es.get ⟨n, h⟩ = CaptureEvent.sample now level →
      ((stateAt cfg (initialState t0) es (n + 1)).recorderState =
          RecorderState.inactive ↔
        ((stateAt cfg (initialState t0) es n).recorderState = RecorderState.inactive ∨
          cfg.maxDurationMs ≤ now - t0))) ∧
    (∀ (n : ℕ) (h : n < es.length) (b : List ℕ),
      es.get ⟨n, h⟩ = CaptureEvent.dataChunk b →
      (stateAt cfg (initialState t0) es (n + 1)).recorderState =
        (stateAt cfg (initialState t0) es n).recorderState) ∧
    (∀ n : ℕ,
      (∀ now level, CaptureEvent.sample now level ∈ es.take n →
        now - t0 < cfg.maxDurationMs) →
      (stateAt cfg (initialState t0) es n).recorderState =
        RecorderState.recording) := by
  have hsil : ∀ n : ℕ, (stateAt cfg (initialState t0) es n).speechDetected = false := by
    intro n
    refine finalState_inv cfg (fun s => s.speechDetected = false) _ _ rfl ?_
    intro s' e he hP
    exact quiet_keeps_silent cfg s' e
      (fun now level heq => hq now level (List.take_subset n es (heq ▸ he))) hP
  have hstart : ∀ n : ℕ,
      (stateAt cfg (initialState t0) es n).recordingStartedAt = t0 := by
    intro n
    rw [stateAt, finalState_recordingStartedAt]
    rfl
  refine ⟨hsil, ?_, ?_, ?_, ?_⟩
  · have h1 : (finalState cfg (initialState t0) es).speechDetected = false := by
      have := hsil es.length
      rwa [stateAt_length] at this
    simp [finalize, h1]
  · intro n h now level hev
    rw [stateAt_succ cfg (initialState t0) es n h, hev]
    have h1 := hsil n
    have h2 := hstart n
    have hl : ¬ (cfg.energyThreshold ≤ level) :=
      not_le.mpr (hq now level (hev ▸ List.get_mem es n h))
    rcases hrec : (stateAt cfg (initialState t0) es n).recorderState with _ | _
    · by_cases hmax : cfg.maxDurationMs ≤ now - t0
      · simp [stepState, stepEvent, monitorTick, hrec, h1, h2, ge_iff_le, hmax]
      · simp [stepState, stepEvent, monitorTick, hrec, h1, h2, ge_iff_le, hmax, hl]
    · simp [stepState, stepEvent, monitorTick, hrec]
  · intro n h b hev
    rw [stateAt_succ cfg (initialState t0) es n h, hev]
    simp only [stepState, stepEvent, onDataAvailable]
    split_ifs <;> rfl
  · intro n hpre
    refine (finalState_inv cfg
      (fun s => s.recorderState = RecorderState.recording ∧
        s.speechDetected = false ∧ s.recordingStartedAt = t0)
      _ _ ⟨rfl, rfl, rfl⟩ ?_).1
    intro s' e he hP
    obtain ⟨hP1, hP2, hP3⟩ := hP
    cases e with
    | sample now level =>
        have hlt := hpre now level he
        have hl : ¬ (cfg.energyThreshold ≤ level) :=
          not_le.mpr (hq now level (List.take_subset n es he))
        refine ⟨?_, ?_, ?_⟩ <;>
          simp [stepState, stepEvent, monitorTick, hP1, hP2, hP3, ge_iff_le,
            not_le.mpr hlt, hl]
    | dataChunk b =>
        refine ⟨?_, ?_, ?_⟩ <;>
          (simp only [stepState, stepEvent, onDataAvailable]
           split_ifs <;> simp_all)
    | stopRequest =>
        exact absurd (List.take_subset n es he) hs

/-- Witness for C3: threshold 1, silence throughout, ceiling 1000ms,
ticks every 100ms; the tick at t=1000 stops the session and the blob is
`None`. -/
theorem c3_witness :
    finalize (finalState ⟨1000, 500, 600, 1, 100, 250⟩ (initialState 0)
      [CaptureEvent.sample 100 0, CaptureEvent.sample 200 0, CaptureEvent.sample 300 0,
        CaptureEvent.sample 400 0, CaptureEvent.sample 500 0, CaptureEvent.sample 600 0,
        CaptureEvent.sample 700 0, CaptureEvent.sample 800 0, CaptureEvent.sample 900 0,
        CaptureEvent.sample 1000 0]) = none ∧
    (stateAt ⟨1000, 500, 600, 1, 100, 250⟩ (initialState 0)
      [CaptureEvent.sample 100 0, CaptureEvent.sample 200 0, CaptureEvent.sample 300 0,
        CaptureEvent.sample 400 0, CaptureEvent.sample 500 0, CaptureEvent.sample 600 0,
        CaptureEvent.sample 700 0, CaptureEvent.sample 800 0, CaptureEvent.sample 900 0,
        CaptureEvent.sample 1000 0] 10).recorderState = RecorderState.inactive := by
  have h := c3_no_speech_ceiling ⟨1000, 500, 600, 1, 100, 250⟩ 0
    [CaptureEvent.sample 100 0, CaptureEvent.sample 200 0, CaptureEvent.sample 300 0,
      CaptureEvent.sample 400 0, CaptureEvent.sample 500 0, CaptureEvent.sample 600 0,
      CaptureEvent.sample 700 0, CaptureEvent.sample 800 0, CaptureEvent.sample 900 0,
      CaptureEvent.sample 1000 0]
    (by
      intro now level hmem
      simp only [List.mem_cons, List.not_mem_nil, or_false,
        CaptureEvent.sample.injEq] at hmem
      rcases hmem with ⟨h1, h2⟩ | ⟨h1, h2⟩ | ⟨h1, h2⟩ | ⟨h1, h2⟩ | ⟨h1, h2⟩ |
        ⟨h1, h2⟩ | ⟨h1, h2⟩ | ⟨h1, h2⟩ | ⟨h1, h2⟩ | ⟨h1, h2⟩ <;>
        (subst h2; decide))
    (by decide)
  refine ⟨h.2.1, ?_⟩
  exact (h.2.2.1 9 (by decide) 1000 0 (by decide)).mpr (Or.inr (by decide))

/-- C1 counterexample: a silence-triggered stop with speech detected but
no nonempty chunk ever delivered ends with final blob `None`, not
present.  Threshold 1; speech at t=100 and t=700, silence at t=1300
(speech duration 1200 ≥ 500, silence 600 ≥ 600 triggers the silence
stop); no data events arrive, so `onstop` computes `null`. -/
theorem c1_counterexample :
    (stepEvent ⟨12000, 500, 600, 1, 100, 250⟩
        (stateAt ⟨12000, 500, 600, 1, 100, 250⟩ (initialState 0)
          [CaptureEvent.sample 100 1, CaptureEvent.sample 700 1,
            CaptureEvent.sample 1300 0] 2)
        (CaptureEvent.sample 1300 0)).outcome = some TickOutcome.stopSilence ∧
    (finalState ⟨12000, 500, 600, 1, 100, 250⟩ (initialState 0)
      [CaptureEvent.sample 100 1, CaptureEvent.sample 700 1,
        CaptureEvent.sample 1300 0]).recorderState = RecorderState.inactive ∧
    (finalState ⟨12000, 500, 600, 1, 100, 250⟩ (initialState 0)
      [CaptureEvent.sample 100 1, CaptureEvent.sample 700 1,
        CaptureEvent.sample 1300 0]).speechDetected = true ∧
    finalize (finalState ⟨12000, 500, 600, 1, 100, 250⟩ (initialState 0)
      [CaptureEvent.sample 100 1, CaptureEvent.sample 700 1,
        CaptureEvent.sample 1300 0]) = none := by
  decide

/-- C1 (amended): while in the Speaking phase and below the session
ceiling, a tick stops the recorder exactly when speech duration has
reached `min_duration` and the time since the last above-threshold
sample (refreshed by the current sample) has reached
`end_silence_duration`; such a stop is precisely the `stopSilence`
branch; and after a silence stop the final blob is present provided at
least one nonempty chunk was collected (it is `None` when no nonempty
chunk ever arrived). -/
theorem c1_silence_stop (cfg : CaptureConfig) (s : SessionState) (now : ℤ) (level : ℚ)
    (hrec : s.recorderState = RecorderState.recording)
    (hsp : s.speechDetected = true)
    (hord : s.recordingStartedAt ≤ s.speechStartedAt)
    (hceil : now - s.recordingStartedAt < cfg.maxDurationMs) :
    ((monitorTick cfg s now level).1.recorderState = RecorderState.inactive ↔
      (cfg.minDurationMs ≤ now - s.speechStartedAt ∧
        cfg.endSilenceMs ≤ now -
          (if cfg.energyThreshold ≤ level then now else s.lastVoiceAt))) ∧
    ((monitorTick cfg s now level).2 = TickOutcome.stopSilence ↔
      (cfg.minDurationMs ≤ now - s.speechStartedAt ∧
        cfg.endSilenceMs ≤ now -
          (if cfg.energyThreshold ≤ level then now else s.lastVoiceAt))) ∧
    ((monitorTick cfg s now level).2 = TickOutcome.stopSilence →
      (monitorTick cfg s now level).1.speechDetected = true ∧
      (s.chunks ≠ [] →
        finalize (monitorTick cfg s now level).1 = some s.chunks.flatten)) := by
  have h1 : ¬ (cfg.maxDurationMs ≤ now - s.recordingStartedAt) := not_le.mpr hceil
  have h2 : ¬ (cfg.maxDurationMs ≤ now - s.speechStartedAt) := by
    intro hc
    exact h1 (by omega)
  by_cases hsil : cfg.minDurationMs ≤ now - s.speechStartedAt ∧
      cfg.endSilenceMs ≤ now -
        (if cfg.energyThreshold ≤ level then now else s.lastVoiceAt)
  · refine ⟨?_, ?_, ?_⟩ <;>
      simp [monitorTick, hrec, hsp, ge_iff_le, h1, h2, hsil, finalize,
        List.length_pos, hsil.1, hsil.2]
  · refine ⟨?_, ?_, ?_⟩ <;>
      simp [monitorTick, hrec, hsp, ge_iff_le, h1, h2, hsil]

/-- Witness for C1: Speaking since t=100, last voice at t=700, tick at
t=1300 with a quiet sample; one chunk `[5]` was collected, so the silence
stop fires and the blob is present. -/
theorem c1_witness :
    (monitorTick ⟨12000, 500, 600, 1, 100, 250⟩
        ⟨RecorderState.recording, true, 100, 0, 700, [[5]]⟩ 1300 0).1.recorderState =
      RecorderState.inactive ∧
    finalize (monitorTick ⟨12000, 500, 600, 1, 100, 250⟩
        ⟨RecorderState.recording, true, 100, 0, 700, [[5]]⟩ 1300 0).1 = some [5] := by
  have h := c1_silence_stop ⟨12000, 500, 600, 1, 100, 250⟩
    ⟨RecorderState.recording, true, 100, 0, 700, [[5]]⟩ 1300 0 rfl rfl
    (by decide) (by decide)
  refine ⟨h.1.mpr (by decide), ?_⟩
  have h3 := (h.2.2 (h.2.1.mpr (by decide))).2 (by decide)
  simpa using h3

/-- Speech detected at any intermediate point implies it is detected in
the final state (the flag is never reset during a session). -/
theorem stateAt_speech_to_final (cfg : CaptureConfig) (s : SessionState)
    (es : List CaptureEvent) (n : ℕ)
    (h : (stateAt cfg s es n).speechDetected = true) :
    (finalState cfg s es).speechDetected = true := by
  by_cases hn : n ≤ es.length
  · rw [← stateAt_length cfg s es,
      stateAt_decompose cfg s es n es.length hn]
    exact finalState_speechDetected_mono cfg _ _ h
  · rw [stateAt, List.take_of_length_le (le_of_not_le hn)] at h
    exact h

/-- C2 counterexample: a session that reached Speaking but collected no
nonempty chunk delivers `None`, not the (empty) concatenation of its
chunks.  Speech is detected at t=100, the caller stops; `onstop`
computes `null` because `chunksRef` is empty. -/
theorem c2_counterexample :
    (finalState ⟨12000, 500, 600, 1, 100, 250⟩ (initialState 0)
      [CaptureEvent.sample 100 1, CaptureEvent.stopRequest]).speechDetected = true ∧
    collectedChunks [CaptureEvent.sample 100 1, CaptureEvent.stopRequest] = [] ∧
    finalize (finalState ⟨12000, 500, 600, 1, 100, 250⟩ (initialState 0)
      [CaptureEvent.sample 100 1, CaptureEvent.stopRequest]) = none := by
  decide

/-- C2 (amended): at the end of any session run — whether it stopped by
tick decision or caller request — the chunk buffer holds exactly the
nonempty chunks delivered during the whole session, the final
speech-detected flag is equivalent to the machine having ever reached
Speaking, and the delivered blob is the concatenation of every collected
chunk when Speaking was reached and at least one nonempty chunk arrived,
and `None` otherwise (in particular `None` when Speaking was reached but
no nonempty chunk was ever delivered). -/
theorem c2_finalize (cfg : CaptureConfig) (t0 : ℤ) (es : List CaptureEvent) :
    (finalState cfg (initialState t0) es).chunks = collectedChunks es ∧
    ((finalState cfg (initialState t0) es).speechDetected = true ↔
      ∃ n : ℕ, (stateAt cfg (initialState t0) es n).speechDetected = true) ∧
    finalize (finalState cfg (initialState t0) es) =
      (if (finalState cfg (initialState t0) es).speechDetected = true ∧
          collectedChunks es ≠ [] then
        some (collectedChunks es).flatten
      else none) := by
  have hchunks : (finalState cfg (initialState t0) es).chunks = collectedChunks es := by
    rw [finalState_chunks]
    rfl
  refine ⟨hchunks, ?_, ?_⟩
  · constructor
    · intro h
      exact ⟨es.length, by rwa [stateAt_length]⟩
    · rintro ⟨n, hn⟩
      exact stateAt_speech_to_final cfg (initialState t0) es n hn
  · rw [finalize, hchunks]
    by_cases h1 : (finalState cfg (initialState t0) es).speechDetected = true
    · by_cases h2 : collectedChunks es = []
      · simp [h1, h2]
      · simp [h1, h2, List.length_pos.mpr h2]
    · simp [h1]

/-- `ondataavailable` equation: nonempty chunk while speaking. -/
theorem onDataAvailable_pos_speech (s : SessionState) (b : List ℕ)
    (h1 : b.length > 0) (h2 : s.speechDetected = true) :
    onDataAvailable s b =
      ({ s with chunks := s.chunks ++ [b] }, some (s.chunks ++ [b]).flatten) := by
  simp [onDataAvailable, h1, h2]

/-- `ondataavailable` equation: nonempty chunk before speech. -/
theorem onDataAvailable_pos_nospeech (s : SessionState) (b : List ℕ)
    (h1 : b.length > 0) (h2 : s.speechDetected = false) :
    onDataAvailable s b = ({ s with chunks := s.chunks ++ [b] }, none) := by
  simp [onDataAvailable, h1, h2]

/-- `ondataavailable` equation: empty chunk is dropped. -/
theorem onDataAvailable_zero (s : SessionState) (b : List ℕ)
    (h1 : ¬ b.length > 0) :
    onDataAvailable s b = (s, none) := by
  simp [onDataAvailable, h1]

/-- Any emitted snapshot equals the concatenation of the chunk buffer
right after the emitting event. -/
theorem snapshotAt_eq_flatten (cfg : CaptureConfig) (s : SessionState)
    (es : List CaptureEvent) (n : ℕ) (u : List ℕ)
    (h : snapshotAt cfg s es n = some u) :
    u = (stateAt cfg s es (n + 1)).chunks.flatten := by
  by_cases hlt : n < es.length
  · rw [stateAt_succ cfg s es n hlt]
    simp only [snapshotAt, dif_pos hlt] at h
    rcases hev : es.get ⟨n, hlt⟩ with ⟨now, level⟩ | b | _ <;> rw [hev] at h
    · exact absurd h (by simp [stepEvent])
    · by_cases h1 : b.length > 0
      · rcases h2 : (stateAt cfg s es n).speechDetected with _ | _
        · exact absurd h
            (by simp [stepEvent, onDataAvailable_pos_nospeech _ _ h1 h2])
        · simp only [stepEvent, onDataAvailable_pos_speech _ _ h1 h2,
            Option.some.injEq] at h
          simp only [stepState, stepEvent, onDataAvailable_pos_speech _ _ h1 h2]
          exact h.symm
      · exact absurd h (by simp [stepEvent, onDataAvailable_zero _ _ h1])
    · exact absurd h (by simp [stepEvent])
  · simp only [snapshotAt, dif_neg hlt] at h
    exact absurd h (by simp)

/-- The chunk buffer grows monotonically along a run. -/
theorem stateAt_chunks_mono (cfg : CaptureConfig) (s : SessionState)
    (es : List CaptureEvent) (m n : ℕ) (h : m ≤ n) :
    ∃ t, (stateAt cfg s es n).chunks = (stateAt cfg s es m).chunks ++ t := by
  rw [stateAt_decompose cfg s es m n h]
  exact finalState_chunks_append cfg _ _

/-- C8: while speech has been detected, every nonempty chunk arrival
emits a snapshot equal to the concatenation of all chunks received up to
and including the current one; no snapshot is ever emitted while speech
is undetected; and the byte lengths of successive snapshots are
monotonically non-decreasing over a session. -/
theorem c8_chunk_snapshots (cfg : CaptureConfig) (t0 : ℤ) (es : List CaptureEvent) :
    (∀ (n : ℕ) (h : n < es.length) (b : List ℕ),
      es.get ⟨n, h⟩ = CaptureEvent.dataChunk b → b ≠ [] →
      (stateAt cfg (initialState t0) es n).speechDetected = true →
      snapshotAt cfg (initialState t0) es n =
        some (collectedChunks (es.take (n + 1))).flatten) ∧
    (∀ n : ℕ, (stateAt cfg (initialState t0) es n).speechDetected = false →
      snapshotAt cfg (initialState t0) es n = none) ∧
    (∀ (n m : ℕ) (u v : List ℕ), n ≤ m →
      snapshotAt cfg (initialState t0) es n = some u →
      snapshotAt cfg (initialState t0) es m = some v →
      u.length ≤ v.length) := by
  refine ⟨?_, ?_, ?_⟩
  · intro n h b hev hb hsp
    have h1 : b.length > 0 := List.length_pos.mpr hb
    have hchunks : (stateAt cfg (initialState t0) es n).chunks =
        collectedChunks (es.take n) := by
      rw [stateAt, finalState_chunks]
      rfl
    have htake : collectedChunks (es.take (n + 1)) =
        collectedChunks (es.take n) ++ [b] := by
      rw [List.get_eq_getElem] at hev
      rw [← List.take_concat_get es n h, List.concat_eq_append, collectedChunks,
        List.filterMap_append, hev]
      simp [collectedChunks, h1]
    simp only [snapshotAt, dif_pos h, hev, stepEvent,
      onDataAvailable_pos_speech _ _ h1 hsp, htake, hchunks]
  · intro n hsp
    by_cases h : n < es.length
    · simp only [snapshotAt, dif_pos h]
      rcases hev : es.get ⟨n, h⟩ with ⟨now, level⟩ | b | _
      · rfl
      · by_cases h1 : b.length > 0
        · simp [stepEvent, onDataAvailable_pos_nospeech _ _ h1 hsp]
        · simp [stepEvent, onDataAvailable_zero _ _ h1]
      · rfl
    · simp only [snapshotAt, dif_neg h]
  · intro n m u v hnm hu hv
    have hun := snapshotAt_eq_flatten cfg (initialState t0) es n u hu
    have hvm := snapshotAt_eq_flatten cfg (initialState t0) es m v hv
    obtain ⟨t, ht⟩ :=
      stateAt_chunks_mono cfg (initialState t0) es (n + 1) (m + 1) (by omega)
    subst hun
    subst hvm
    rw [ht, List.flatten_append, List.length_append]
    omega

/-- Witness for C8: speech detected at t=100, chunks `[7]` then `[8,9]`;
the second chunk's snapshot is the concatenation of all chunks so far. -/
theorem c8_witness :
    snapshotAt ⟨12000, 500, 600, 1, 100, 250⟩ (initialState 0)
      [CaptureEvent.sample 100 1, CaptureEvent.dataChunk [7],
        CaptureEvent.dataChunk [8, 9]] 2 =
      some (collectedChunks ([CaptureEvent.sample 100 1, CaptureEvent.dataChunk [7],
        CaptureEvent.dataChunk [8, 9]].take 3)).flatten :=
  (c8_chunk_snapshots ⟨12000, 500, 600, 1, 100, 250⟩ 0
    [CaptureEvent.sample 100 1, CaptureEvent.dataChunk [7],
      CaptureEvent.dataChunk [8, 9]]).1 2 (by decide) [8, 9] rfl
    (by decide) (by decide)

/-- In a gap-bounded list of tick times whose head is within one gap of
the target and which eventually reaches the target, some tick lies in
`[target, target + gap]`. -/
theorem ticks_reach_target (gap target : ℤ) :
    ∀ times : List ℤ,
      List.Chain' (fun a b => b ≤ a + gap) times →
      (∀ hd, times.head? = some hd → hd ≤ target + gap) →
      (∃ t ∈ times, target ≤ t) →
      ∃ t ∈ times, target ≤ t ∧ t ≤ target + gap := by
  intro times
  induction times with
  | nil =>
      rintro _ _ ⟨t, ht, _⟩
      exact absurd ht (List.not_mem_nil t)
  | cons t1 rest ih =>
      intro hchain hhd hex
      by_cases h1 : target ≤ t1
      · exact ⟨t1, List.mem_cons_self t1 rest, h1, hhd t1 rfl⟩
      · obtain ⟨t, ht, htgt⟩ := hex
        rcases List.mem_cons.mp ht with rfl | hmem
        · exact absurd htgt h1
        · cases rest with
          | nil => exact absurd hmem (List.not_mem_nil t)
          | cons t2 rest2 =>
              have hchain2 := List.chain'_cons.mp hchain
              obtain ⟨t', ht', h3, h4⟩ := ih hchain2.2
                (by
                  intro hd hhd2
                  simp only [List.head?_cons, Option.some.injEq] at hhd2
                  subst hhd2
                  have := hchain2.1
                  omega)
                ⟨t, hmem, htgt⟩
              exact ⟨t', List.mem_cons_of_mem t1 ht', h3, h4⟩

/-- C10 counterexample: a session that entered Speaking and ran to the
session ceiling with no nonempty chunk delivers a `None` blob, against
the claim's "with the blob present".  Ceiling 1000ms, speech at every
tick from t=100; the tick at t=1000 stops the session (elapsed since
session start reached the ceiling), yet `onstop` computes `null`. -/
theorem c10_counterexample :
    (finalState ⟨1000, 500, 600, 1, 100, 250⟩ (initialState 0)
      [CaptureEvent.sample 100 1, CaptureEvent.sample 200 1, CaptureEvent.sample 300 1,
        CaptureEvent.sample 400 1, CaptureEvent.sample 500 1, CaptureEvent.sample 600 1,
        CaptureEvent.sample 700 1, CaptureEvent.sample 800 1, CaptureEvent.sample 900 1,
        CaptureEvent.sample 1000 1]).speechDetected = true ∧
    (stepEvent ⟨1000, 500, 600, 1, 100, 250⟩
        (stateAt ⟨1000, 500, 600, 1, 100, 250⟩ (initialState 0)
          [CaptureEvent.sample 100 1, CaptureEvent.sample 200 1,
            CaptureEvent.sample 300 1, CaptureEvent.sample 400 1,
            CaptureEvent.sample 500 1, CaptureEvent.sample 600 1,
            CaptureEvent.sample 700 1, CaptureEvent.sample 800 1,
            CaptureEvent.sample 900 1, CaptureEvent.sample 1000 1] 9)
        (CaptureEvent.sample 1000 1)).outcome = some TickOutcome.stopMaxDuration ∧
    finalize (finalState ⟨1000, 500, 600, 1, 100, 250⟩ (initialState 0)
      [CaptureEvent.sample 100 1, CaptureEvent.sample 200 1, CaptureEvent.sample 300 1,
        CaptureEvent.sample 400 1, CaptureEvent.sample 500 1, CaptureEvent.sample 600 1,
        CaptureEvent.sample 700 1, CaptureEvent.sample 800 1, CaptureEvent.sample 900 1,
        CaptureEvent.sample 1000 1]) = none := by
  decide

/-- C10 (amended): in every phase — `AwaitingSpeech` as well as
`Speaking` — a tick whose elapsed time since session start has reached
`max_duration` makes the recorder inactive; a tick after which the
session is still recording happened strictly before the ceiling; under a
gap-bounded tick schedule that reaches the ceiling, the session is
stopped by a tick no later than `t0 + max_duration + sample_interval`
(in particular no later than `max_duration` plus one interval after
`start()`, not measured from speech start); and the final blob is
present provided speech was detected and at least one nonempty chunk was
collected. -/
theorem c10_max_duration (cfg : CaptureConfig) (t0 : ℤ) (es : List CaptureEvent) :
    (∀ (n : ℕ) (h : n < es.length) (now : ℤ) (level : ℚ),
      es.get ⟨n, h⟩ = CaptureEvent.sample now level →
      cfg.maxDurationMs ≤ now - t0 →
      (stateAt cfg (initialState t0) es (n + 1)).recorderState =
        RecorderState.inactive) ∧
    (∀ (n : ℕ) (h : n < es.length) (now : ℤ) (level : ℚ),
      es.get ⟨n, h⟩ = CaptureEvent.sample now level →
      (stateAt cfg (initialState t0) es (n + 1)).recorderState =
        RecorderState.recording →
      now - t0 < cfg.maxDurationMs) ∧
    (∀ (times : List ℤ) (lv : ℤ → ℚ),
      es = times.map (fun t => CaptureEvent.sample t (lv t)) →
      0 ≤ cfg.maxDurationMs →
      List.Chain' (fun a b => b ≤ a + cfg.sampleIntervalMs) times →
      (∀ hd, times.head? = some hd → hd ≤ t0 + cfg.sampleIntervalMs) →
      (∃ t ∈ times, t0 + cfg.maxDurationMs ≤ t) →
      ∃ (n : ℕ) (h : n < es.length) (now : ℤ) (level : ℚ),
        es.get ⟨n, h⟩ = CaptureEvent.sample now level ∧
        now ≤ t0 + cfg.maxDurationMs + cfg.sampleIntervalMs ∧
        (stateAt cfg (initialState t0) es (n + 1)).recorderState =
          RecorderState.inactive) ∧
    ((finalState cfg (initialState t0) es).speechDetected = true →
      (finalState cfg (initialState t0) es).chunks ≠ [] →
      finalize (finalState cfg (initialState t0) es) =
        some (finalState cfg (initialState t0) es).chunks.flatten) := by
  have hstart : ∀ n : ℕ,
      (stateAt cfg (initialState t0) es n).recordingStartedAt = t0 := by
    intro n
    rw [stateAt, finalState_recordingStartedAt]
    rfl
  have key : ∀ (n : ℕ) (h : n < es.length) (now : ℤ) (level : ℚ),
      es.get ⟨n, h⟩ = CaptureEvent.sample now level →
      cfg.maxDurationMs ≤ now - t0 →
      (stateAt cfg (initialState t0) es (n + 1)).recorderState =
        RecorderState.inactive := by
    intro n h now level hev hmax
    rw [stateAt_succ cfg (initialState t0) es n h, hev]
    have h2 := hstart n
    rcases hrec : (stateAt cfg (initialState t0) es n).recorderState with _ | _
    · simp [stepState, stepEvent, monitorTick, hrec, h2, ge_iff_le, hmax]
    · exact stepState_inactive cfg _ (CaptureEvent.sample now level) hrec
  refine ⟨key, ?_, ?_, ?_⟩
  · intro n h now level hev hrec2
    by_contra hge
    push_neg at hge
    have hin := key n h now level hev hge
    rw [hin] at hrec2
    exact RecorderState.noConfusion hrec2
  · intro times lv hes hmax0 hchain hhd hex
    obtain ⟨t, htmem, h3, h4⟩ := ticks_reach_target cfg.sampleIntervalMs
      (t0 + cfg.maxDurationMs) times hchain
      (fun hd hh => le_trans (hhd hd hh) (by omega)) hex
    subst hes
    obtain ⟨⟨i, hi⟩, hget⟩ := List.mem_iff_get.mp htmem
    have hi' : i < (times.map (fun t => CaptureEvent.sample t (lv t))).length := by
      rw [List.length_map]
      exact hi
    have hevi : (times.map (fun t => CaptureEvent.sample t (lv t))).get ⟨i, hi'⟩ =
        CaptureEvent.sample t (lv t) := by
      rw [List.get_eq_getElem] at hget
      rw [List.get_eq_getElem, List.getElem_map]
      simp only [Fin.val_mk] at hget ⊢
      rw [hget]
    exact ⟨i, hi', t, lv t, hevi, by omega,
      key i hi' t (lv t) hevi (by omega)⟩
  · intro hsp hne
    simp [finalize, hsp, List.length_pos.mpr hne]

/-- Witness for C10: ceiling 1000ms, interval 100ms, speech on every
tick; some tick no later than t=1100 has already stopped the session. -/
theorem c10_witness :
    ∃ (n : ℕ)
      (h : n < ([CaptureEvent.sample 100 1, CaptureEvent.sample 200 1,
        CaptureEvent.sample 300 1, CaptureEvent.sample 400 1,
        CaptureEvent.sample 500 1, CaptureEvent.sample 600 1,
        CaptureEvent.sample 700 1, CaptureEvent.sample 800 1,
        CaptureEvent.sample 900 1, CaptureEvent.sample 1000 1] :
          List CaptureEvent).length)
      (now : ℤ) (level : ℚ),
      ([CaptureEvent.sample 100 1, CaptureEvent.sample 200 1,
        CaptureEvent.sample 300 1, CaptureEvent.sample 400 1,
        CaptureEvent.sample 500 1, CaptureEvent.sample 600 1,
        CaptureEvent.sample 700 1, CaptureEvent.sample 800 1,
        CaptureEvent.sample 900 1, CaptureEvent.sample 1000 1] :
          List CaptureEvent).get ⟨n, h⟩ = CaptureEvent.sample now level ∧
      now ≤ 0 + 1000 + 100 ∧
      (stateAt ⟨1000, 500, 600, 1, 100, 250⟩ (initialState 0)
        [CaptureEvent.sample 100 1, CaptureEvent.sample 200 1,
          CaptureEvent.sample 300 1, CaptureEvent.sample 400 1,
          CaptureEvent.sample 500 1, CaptureEvent.sample 600 1,
          CaptureEvent.sample 700 1, CaptureEvent.sample 800 1,
          CaptureEvent.sample 900 1, CaptureEvent.sample 1000 1]
        (n + 1)).recorderState = RecorderState.inactive :=
  (c10_max_duration ⟨1000, 500, 600, 1, 100, 250⟩ 0
    [CaptureEvent.sample 100 1, CaptureEvent.sample 200 1, CaptureEvent.sample 300 1,
      CaptureEvent.sample 400 1, CaptureEvent.sample 500 1, CaptureEvent.sample 600 1,
      CaptureEvent.sample 700 1, CaptureEvent.sample 800 1, CaptureEvent.sample 900 1,
      CaptureEvent.sample 1000 1]).2.2.1
    [100, 200, 300, 400, 500, 600, 700, 800, 900, 1000] (fun _ => 1) rfl
    (by decide)
    (by simp [List.chain'_cons])
    (by
      intro hd hh
      simp only [List.head?_cons, Option.some.injEq] at hh
      subst hh
      decide)
    ⟨1000, by decide, by decide⟩

/-- C5 (code bug evidence): when device acquisition succeeds but the
`MediaRecorder` constructor throws, `startRecording` does return `false`
and fires exactly one `onError`, and the `catch` block's `cleanup()`
clears every ref — but the stream acquired at line 150 and the audio
context created at line 154 were not yet stored into the refs (that
happens only at lines 163-166), so `cleanup()` never stops the stream's
tracks nor closes the context: both stay live, contradicting the claimed
full rollback.  The same holds for an analyser-setup failure. -/
theorem c5_rollback_gap :
    (startRecording true idleRefs emptyOptions
        (some (StartFailure.mediaRecorderCtor
          { isException := true, message := "boom" })) 0).returned = false ∧
    (startRecording true idleRefs emptyOptions
        (some (StartFailure.mediaRecorderCtor
          { isException := true, message := "boom" })) 0).errors = ["boom"] ∧
    (startRecording true idleRefs emptyOptions
        (some (StartFailure.mediaRecorderCtor
          { isException := true, message := "boom" })) 0).refs = idleRefs ∧
    (startRecording true idleRefs emptyOptions
        (some (StartFailure.mediaRecorderCtor
          { isException := true, message := "boom" })) 0).streamLeaked = true ∧
    (startRecording true idleRefs emptyOptions
        (some (StartFailure.mediaRecorderCtor
          { isException := true, message := "boom" })) 0).audioContextLeaked = true ∧
    (startRecording true idleRefs emptyOptions
        (some (StartFailure.getUserMedia
          { isException := true, message := "denied" })) 0).streamLeaked = false := by
  decide
